import Mathlib

/-!
Verification of the Janus AudioBridge signaling client
(`janus_client/plugin_audiobridge.py`).

The development shallow-embeds the plugin's message matching, its
send-then-await wrapper, its asynchronous event handler and its
room/stream operations.  Messages are modelled as JSON-like values,
the asynchronous reply stream as a list of timestamped messages, and
the external media engine (aiortc `RTCPeerConnection`) by the small
interface the plugin relies on: a connection state, an idempotent
`close`, and a `connectionstatechange` notification delivered to the
registered handler.
-/

/-! ## JSON-like messages -/

mutual
/-- Structured control messages exchanged with the gateway: strings,
integers, booleans, `None` (also the wildcard marker in patterns) and
string-keyed objects. -/
inductive JValue where
  | jstr : String → JValue
  | jint : Int → JValue
  | jbool : Bool → JValue
  | jnull : JValue
  | jobj : JFields → JValue
deriving DecidableEq

/-- Association list of fields of a JSON object. -/
inductive JFields where
  | nil : JFields
  | cons : String → JValue → JFields → JFields
deriving DecidableEq
end

/-- Lookup of a key in an object's field list (first occurrence wins). -/
def JFields.lookup : JFields → String → Option JValue
  | .nil, _ => none
  | .cons k v rest, key => if k = key then some v else rest.lookup key

instance : BEq JValue := ⟨fun a b => decide (a = b)⟩

/-- Python `d.get(k)` / `d[k]` access: `none` when the key is missing or
the value is not an object. -/
def JValue.get? : JValue → String → Option JValue
  | .jobj fs, k => fs.lookup k
  | _, _ => none

/-- Python `k in d` membership test on an object (false on non-objects). -/
def hasKey (j : JValue) (k : String) : Bool :=
  match j with
  | .jobj fs => (fs.lookup k).isSome
  | _ => false

/-- Python truthiness of a message value: `None`, `False`, `0`, `""` and
`{}` are falsy, everything else truthy. -/
def pyTruthy : JValue → Bool
  | .jstr s => s != ""
  | .jint n => n != 0
  | .jbool b => b
  | .jnull => false
  | .jobj .nil => false
  | .jobj (.cons _ _ _) => true

/-- Builds an object value from a list literal of fields. -/
def JFields.ofList : List (String × JValue) → JFields
  | [] => .nil
  | (k, v) :: rest => .cons k v (JFields.ofList rest)

/-- Shorthand constructor for object values. -/
def jo (l : List (String × JValue)) : JValue := .jobj (JFields.ofList l)

/-- Nested three-level access `response[k1][k2][k3]` as used by
`exists` to read `plugindata.data.exists`. -/
def jget3 (response : JValue) (k1 k2 k3 : String) : Option JValue :=
  (response.get? k1).bind fun a => (a.get? k2).bind fun b => b.get? k3

/-! ## The structural subset matcher

Modelled from the spec: `message_transaction.is_subset` is not under
`src/`; §4.1 of the spec defines it — `matches(candidate, pattern)` is
true iff for every key of `pattern` the candidate contains that key and
the pattern value is the wildcard (`None`), a nested pattern matched
recursively, or structurally equal to the candidate value; an empty
pattern matches anything; a non-empty object pattern fails on a
non-object candidate instead of erroring. -/

mutual
/-- Structural containment of `pattern` (second argument) in the
candidate message (first argument). -/
def is_subset : JValue → JValue → Bool
  | _, .jnull => true
  | c, .jobj pats => subFields c pats
  | c, p => c == p

/-- Checks every pattern field against the candidate; an empty field
list succeeds on any candidate, a non-empty one requires an object. -/
def subFields : JValue → JFields → Bool
  | _, .nil => true
  | .jobj cf, .cons k v rest =>
      (match cf.lookup k with
       | some cv => is_subset cv v
       | none => false) && subFields (.jobj cf) rest
  | _, .cons _ _ _ => false
end

/-! ## Plugin message patterns (`plugin_audiobridge.py`) -/

/-- `JanusAudioBridgePlugin.name`. -/
def pluginName : String := "janus.plugin.audiobridge"

/-- Top-level gateway error shape `{"janus": "error", "error": {}}`
tested by `__send_wrapper`. -/
def errorPattern : JValue := jo [("janus", .jstr "error"), ("error", jo [])]

/-- Shared `plugindata.data` part of the two generic acceptance
patterns inside `__send_wrapper`; note the nested `videoroom` key. -/
def videoroomDataPat : JValue :=
  jo [("videoroom", .jstr "event"), ("error_code", .jnull), ("error", .jnull)]

/-- Generic acceptance pattern of `__send_wrapper` with the given
top-level `janus` discriminator (`"success"` or `"event"`). -/
def mkGenericPat (jv : JValue) : JValue :=
  jo [("janus", jv),
      ("plugindata", jo [("plugin", .jstr pluginName), ("data", videoroomDataPat)])]

/-- First generic acceptance pattern (`janus = "success"`). -/
def genericSuccessPat : JValue := mkGenericPat (.jstr "success")

/-- Second generic acceptance pattern (`janus = "event"`). -/
def genericEventPat : JValue := mkGenericPat (.jstr "event")

/-- Whether a reply's `plugindata.data` object carries the key
`videoroom` (audiobridge replies carry `audiobridge` instead). -/
def has_videoroom_key (msg : JValue) : Bool :=
  match msg.get? "plugindata" with
  | some pd =>
      match pd.get? "data" with
      | some d => hasKey d "videoroom"
      | none => false
  | none => false

/-- `function_matcher` built inside `__send_wrapper`: the caller's
success matcher, the two generic `videoroom` patterns, or the
top-level error pattern. -/
def function_matcher (matcher : JValue) (message : JValue) : Bool :=
  is_subset message matcher
  || is_subset message genericSuccessPat
  || is_subset message genericEventPat
  || is_subset message errorPattern

/-- Success matcher of `exists` for a room. -/
def exists_matcher (room : JValue) : JValue :=
  jo [("janus", .jstr "success"),
      ("plugindata", jo [("plugin", .jstr pluginName),
        ("data", jo [("audiobridge", .jstr "success"), ("room", room),
                     ("exists", .jnull)])])]

/-- Success matcher of `join` for a room. -/
def join_matcher (room : JValue) : JValue :=
  jo [("janus", .jstr "event"),
      ("plugindata", jo [("plugin", .jstr pluginName),
        ("data", jo [("audiobridge", .jstr "joined"), ("room", room)])])]

/-- Success matcher of `leave` for a room. -/
def leave_matcher (room : JValue) : JValue :=
  jo [("janus", .jstr "event"),
      ("plugindata", jo [("plugin", .jstr pluginName),
        ("data", jo [("audiobridge", .jstr "left"), ("room", room)])])]

/-- Success matcher of `configure`. -/
def configure_matcher : JValue :=
  jo [("janus", .jstr "event"),
      ("plugindata", jo [("plugin", .jstr pluginName),
        ("data", jo [("audiobridge", .jstr "event"), ("result", .jstr "ok")])])]

/-! ## Errors raised by the plugin -/

/-- Failures surfaced to the caller of an operation.  `exception`
carries the message of a raised Python `Exception`; `janusError`
carries the gateway error reply raised by `__send_wrapper`
(the spec's RemoteError); `transactionTimeout` is the timeout of the
await (the spec's TransactionTimeout); `keyError` abstracts a failing
mapping access. -/
inductive PyErr where
  | exception : String → PyErr
  | janusError : JValue → PyErr
  | transactionTimeout : PyErr
  | keyError : PyErr
deriving DecidableEq

deriving instance DecidableEq for Except

/-! ## The send-then-await wrapper

The inbound reply stream of one transaction is a list of
`(arrival time, message)` pairs in delivery order.  `MessageTransaction`
itself is not under `src/`.  Modelled from the spec: the await returns
the first buffered message satisfying the predicate that arrives
within the timeout; on expiry it fails with TransactionTimeout and the
Transaction is released (spec §4.3, §5).  The boolean of the result
records whether the transaction was released: `__send_wrapper` calls
`message_transaction.done()` right after a successful await, before
the error-reply check. -/

/-- Embedding of `__send_wrapper` applied to the reply stream of its
transaction: awaits the first `function_matcher` match within the
protocol timeout of 15, releases the transaction, then raises on a
gateway error reply. -/
def sendWrapperRun (matcher : JValue) (arrivals : List (Nat × JValue)) :
    Except PyErr JValue × Bool :=
  match arrivals.find? (fun a => decide (a.1 ≤ 15) && function_matcher matcher a.2) with
  | none => (.error .transactionTimeout, true)
  | some a =>
      if is_subset a.2 errorPattern then (.error (.janusError a.2), true)
      else (.ok a.2, true)

/-! ## Session state, callbacks and the media engine -/

/-- `JanusAudioBridgePlugin.State`. -/
inductive State where
  | streaming_out_media
  | streaming_in_media
  | idle
deriving DecidableEq

/-- Observable external effects: invocations of the configured
callbacks and the application of a received remote description
(`on_receive_jsep`). -/
inductive CallbackEvent where
  | mediaReceived
  | trackCreated
  | streamEnded
  | jsepApplied
deriving DecidableEq

/-- The slice of the aiortc `RTCPeerConnection` the plugin relies on
(spec §6): a connection state and whether the plugin registered its
`connectionstatechange` handler. -/
structure PC where
  connectionState : String
  handlerRegistered : Bool
deriving DecidableEq

/-- Observable plugin instance state: `self.__state`, `self._pc`, and
the log of callback invocations. -/
structure Plugin where
  state : State
  pc : Option PC
  events : List CallbackEvent
deriving DecidableEq

/-- `__on_stream_ended`: closes the peer connection if present (at its
only call site the connection is already reported closed, so this is
the idempotent no-op branch of `close`) and then invokes the
configured stream-ended callback. -/
def on_stream_ended (p : Plugin) : Plugin :=
  let p1 :=
    match p.pc with
    | some pc => { p with pc := some { pc with connectionState := "closed" } }
    | none => p
  { p1 with events := p1.events ++ [.streamEnded] }

/-- `__on_state_changed`, the registered `connectionstatechange`
handler: on `"closed"` it runs `__on_stream_ended` and resets the
state to IDLE. -/
def on_state_changed (p : Plugin) : Plugin :=
  match p.pc with
  | some pc =>
      if pc.connectionState = "closed" then
        let p1 := on_stream_ended p
        { p1 with state := .idle }
      else p
  | none => p

/-- Closing the peer connection from plugin code (`self._pc.close()`).
Modelled from the spec: the media engine's `close` is idempotent and,
on an actual transition to `"closed"`, delivers a
`connectionstatechange` notification to the registered handler
(spec §6). -/
def pc_close (p : Plugin) : Plugin :=
  match p.pc with
  | none => p
  | some pc =>
      if pc.connectionState = "closed" then p
      else
        let p1 := { p with pc := some { pc with connectionState := "closed" } }
        if pc.handlerRegistered then on_state_changed p1 else p1

/-- The media engine reports that the connection transitioned to
`"closed"` (connection-closed notification, e.g. remote hangup): the
state changes and the registered handler runs.  Modelled from the
spec's media-engine interface (spec §6). -/
def connection_closed (p : Plugin) : Plugin :=
  match p.pc with
  | none => p
  | some pc =>
      let p1 := { p with pc := some { pc with connectionState := "closed" } }
      if pc.handlerRegistered then on_state_changed p1 else p1

/-! ## Asynchronous message handling -/

/-- The `webrtcup` broadcast message. -/
def webrtcupMsg : JValue := jo [("janus", .jstr "webrtcup")]

/-- `on_receive`: handles one asynchronous message given the current
session state and the webrtcup event flag; returns the new state, the
new flag and the emitted callback events, or the raised exception. -/
def on_receive (st : State) (flag : Bool) (response : JValue) :
    Except PyErr (State × Bool × List CallbackEvent) :=
  let ev0 : List CallbackEvent :=
    if hasKey response "jsep" then [.jsepApplied] else []
  match response.get? "janus" with
  | none => .error .keyError
  | some jc =>
      if jc = .jstr "webrtcup" then .ok (st, true, ev0)
      else if jc = .jstr "media" then
        match response.get? "receiving" with
        | none => .error .keyError
        | some r =>
            if pyTruthy r then
              if st = .streaming_in_media then .ok (st, flag, ev0 ++ [.mediaReceived])
              else if st = .idle then .error (.exception "Media streaming when idle")
              else .ok (st, flag, ev0)
            else .ok (st, flag, ev0)
      else if jc = .jstr "event" then
        match response.get? "plugindata" with
        | none => .error .keyError
        | some pd =>
            match pd.get? "data" with
            | none => .error .keyError
            | some d =>
                match d.get? "audiobridge" with
                | none => .error .keyError
                | some _ => .ok (st, flag, ev0)
      else .ok (st, flag, ev0)

/-- Sequential handling of a list of asynchronous messages,
accumulating the emitted callback events. -/
def on_receive_all (st : State) (flag : Bool) :
    List JValue → Except PyErr (State × Bool × List CallbackEvent)
  | [] => .ok (st, flag, [])
  | m :: rest =>
      match on_receive st flag m with
      | .error e => .error e
      | .ok (st2, f2, evs) =>
          match on_receive_all st2 f2 rest with
          | .error e => .error e
          | .ok (st3, f3, evs2) => .ok (st3, f3, evs ++ evs2)

/-- One delivery of the `webrtcup` message through `on_receive`,
tracking only state and flag. -/
def webrtcup_step (s : State × Bool) : State × Bool :=
  match on_receive s.1 s.2 webrtcupMsg with
  | .ok (st2, f2, _) => (st2, f2)
  | .error _ => s

/-- Delivery of `n` successive `webrtcup` messages. -/
def receive_webrtcup_iter : Nat → State × Bool → State × Bool
  | 0, s => s
  | n + 1, s => receive_webrtcup_iter n (webrtcup_step s)

/-- `wait_webrtcup` acting on the event flag: when the flag is set the
wait completes and the flag is cleared (`event.wait()` then
`event.clear()`); when it is clear the coroutine blocks (`none`). -/
def wait_webrtcup_step (flag : Bool) : Option Bool :=
  if flag then some false else none

/-! ## Room and stream operations -/

/-- `exists`: sends the exists request and returns the Python value of
`is_subset(response, success_matcher) and response["plugindata"]["data"]["exists"]`. -/
def exists_op (room : JValue) (arrivals : List (Nat × JValue)) :
    Except PyErr JValue :=
  match (sendWrapperRun (exists_matcher room) arrivals).1 with
  | .error e => .error e
  | .ok response =>
      if is_subset response (exists_matcher room) then
        match jget3 response "plugindata" "data" "exists" with
        | some v => .ok v
        | none => .error .keyError
      else .ok (.jbool false)

/-- `join`: sends the join request and returns whether the reply
matched the success matcher. -/
def join_op (room : JValue) (arrivals : List (Nat × JValue)) :
    Except PyErr Bool :=
  match (sendWrapperRun (join_matcher room) arrivals).1 with
  | .error e => .error e
  | .ok response => .ok (is_subset response (join_matcher room))

/-- `leave`: sends the leave request, then closes the peer connection,
and returns whether the reply matched the success matcher. -/
def leave_op (room : JValue) (p : Plugin) (arrivals : List (Nat × JValue)) :
    Except PyErr Bool × Plugin :=
  match (sendWrapperRun (leave_matcher room) arrivals).1 with
  | .error e => (.error e, p)
  | .ok response =>
      match p.pc with
      | none => (.error (.exception "NoneType has no attribute close"), p)
      | some _ =>
          (.ok (is_subset response (leave_matcher room)), pc_close p)

/-- `configure_pc_and_create_offer`: requires a peer connection and a
track, attaches the track, creates and sets the local offer, sets the
state to STREAMING_OUT_MEDIA and registers the track and
connection-state handlers. -/
def configure_pc_and_create_offer (track : Bool) (p : Plugin) :
    Except PyErr Unit × Plugin :=
  match p.pc with
  | none => (.error (.exception "PeerConnection not available"), p)
  | some pc =>
      if track = false then
        (.error (.exception "No media track provided to configure PeerConnection"), p)
      else
        (.ok (), { p with state := .streaming_out_media,
                          pc := some { pc with handlerRegistered := true } })

/-- The guard `jsep and "sdp" in jsep and "type" in jsep` applied to
`response.get("jsep")` in `configure`. -/
def valid_jsep (response : JValue) : Bool :=
  match response.get? "jsep" with
  | some j => pyTruthy j && hasKey j "sdp" && hasKey j "type"
  | none => false

/-- `configure`: requires a peer connection, sends the configure
request with the local offer, and on a success-matched reply carrying
a valid answer applies it (`on_receive_jsep`) and sets the state to
STREAMING_IN_MEDIA, returning `true`; otherwise returns `false`
without touching the state. -/
def configure (p : Plugin) (arrivals : List (Nat × JValue)) :
    Except PyErr Bool × Plugin :=
  match p.pc with
  | none => (.error (.exception "No PeerConnection available to configure in Janus"), p)
  | some _ =>
      match (sendWrapperRun configure_matcher arrivals).1 with
      | .error e => (.error e, p)
      | .ok response =>
          if is_subset response configure_matcher then
            if valid_jsep response then
              (.ok true, { p with state := .streaming_in_media,
                                  events := p.events ++ [.jsepApplied] })
            else (.ok false, p)
          else (.ok false, p)

/-- `publish_stream`: configures the peer connection with the track and
then issues `configure`; its own return value is `None`. -/
def publish_stream (track : Bool) (p : Plugin) (arrivals : List (Nat × JValue)) :
    Except PyErr Unit × Plugin :=
  match configure_pc_and_create_offer track p with
  | (.error e, p1) => (.error e, p1)
  | (.ok _, p1) =>
      match configure p1 arrivals with
      | (.error e, p2) => (.error e, p2)
      | (.ok _, p2) => (.ok (), p2)

/-! ## Sample concrete values -/

/-- Room identifier used by the repository's test scenario. -/
def room1234 : JValue := .jstr "1234"

/-- Scenario A reply: exists succeeded with `exists: true`. -/
def sampleExistsReply : JValue :=
  jo [("janus", .jstr "success"),
      ("plugindata", jo [("plugin", .jstr pluginName),
        ("data", jo [("audiobridge", .jstr "success"), ("room", room1234),
                     ("exists", .jbool true)])])]

/-- Scenario C reply: configure acknowledged ok but with no embedded
answer. -/
def sampleConfigureOkNoJsep : JValue :=
  jo [("janus", .jstr "event"),
      ("plugindata", jo [("plugin", .jstr pluginName),
        ("data", jo [("audiobridge", .jstr "event"), ("result", .jstr "ok")])])]

/-- Configure acknowledged ok carrying a valid answer. -/
def sampleConfigureOkWithJsep : JValue :=
  jo [("janus", .jstr "event"),
      ("plugindata", jo [("plugin", .jstr pluginName),
        ("data", jo [("audiobridge", .jstr "event"), ("result", .jstr "ok")])]),
      ("jsep", jo [("type", .jstr "answer"), ("sdp", .jstr "v=0")])]

/-- A gateway error reply. -/
def sampleError : JValue :=
  jo [("janus", .jstr "error"),
      ("error", jo [("code", .jint 490), ("reason", .jstr "room missing")])]

/-- A successful leave reply. -/
def sampleLeaveReply : JValue :=
  jo [("janus", .jstr "event"),
      ("plugindata", jo [("plugin", .jstr pluginName),
        ("data", jo [("audiobridge", .jstr "left"), ("room", room1234)])])]

/-- The media-flowing broadcast. -/
def sampleMediaMsg : JValue :=
  jo [("janus", .jstr "media"), ("receiving", .jbool true)]

/-- A fresh peer connection with no handler registered. -/
def pc0 : PC := { connectionState := "new", handlerRegistered := false }

/-- A connected peer connection with the state handler registered. -/
def pcReg : PC := { connectionState := "connected", handlerRegistered := true }

/-- An idle plugin holding a fresh peer connection. -/
def plugin0 : Plugin := { state := .idle, pc := some pc0, events := [] }

/-- A plugin streaming in with a registered state handler. -/
def pluginStreaming : Plugin :=
  { state := .streaming_in_media, pc := some pcReg, events := [] }

/-! ## Helper lemmas -/

/-- Inversion of the matcher on a non-empty field pattern: the
candidate must be an object containing the key, with a matching value
and matching remaining fields. -/
theorem subFields_cons_true {c : JValue} {k : String} {v : JValue} {rest : JFields}
    (h : subFields c (.cons k v rest) = true) :
    ∃ cf cv, c = .jobj cf ∧ cf.lookup k = some cv ∧ is_subset cv v = true
      ∧ subFields c rest = true := by
  cases c with
  | jobj cf =>
    simp only [subFields, Bool.and_eq_true] at h
    obtain ⟨h1, h2⟩ := h
    cases hl : cf.lookup k with
    | none => rw [hl] at h1; exact absurd h1 (by simp)
    | some cv =>
      rw [hl] at h1
      exact ⟨cf, cv, rfl, hl, h1, h2⟩
  | jstr s => simp [subFields] at h
  | jint n => simp [subFields] at h
  | jbool b => simp [subFields] at h
  | jnull => simp [subFields] at h

/-- Any message accepted by a generic `videoroom` acceptance pattern
carries the key `videoroom` under `plugindata.data`. -/
theorem generic_needs_videoroom (msg : JValue) (jv : JValue)
    (h : is_subset msg (mkGenericPat jv) = true) :
    has_videoroom_key msg = true := by
  simp only [mkGenericPat, jo, JFields.ofList, is_subset] at h
  obtain ⟨cf, _, hmsg, _, _, hrest⟩ := subFields_cons_true h
  obtain ⟨cf2, pd, hmsg2, hlpd, hpd, _⟩ := subFields_cons_true hrest
  rw [hmsg] at hmsg2
  injection hmsg2 with hcf
  subst hcf
  simp only [videoroomDataPat, jo, JFields.ofList, is_subset] at hpd
  obtain ⟨pdf, _, hpd1, _, _, hpdrest⟩ := subFields_cons_true hpd
  obtain ⟨pdf2, d, hpd2, hld, hd, _⟩ := subFields_cons_true hpdrest
  rw [hpd1] at hpd2
  injection hpd2 with hpdf
  subst hpdf
  simp only [is_subset] at hd
  obtain ⟨df, vr, hdeq, hlvr, _, _⟩ := subFields_cons_true hd
  subst hmsg hpd1 hdeq
  simp [has_videoroom_key, JValue.get?, hlpd, hld, hasKey, hlvr]

/-- A gateway error reply satisfies `function_matcher` whatever the
caller's success matcher is. -/
theorem function_matcher_error (m err : JValue)
    (h : is_subset err errorPattern = true) : function_matcher m err = true := by
  simp [function_matcher, h]

/-- The await returns the head of the reply stream when it arrives in
time and matches; the transaction is then released and the error check
applied. -/
theorem send_wrapper_first_match (m : JValue) (t : Nat) (msg : JValue)
    (rest : List (Nat × JValue)) (ht : t ≤ 15) (hm : function_matcher m msg = true) :
    sendWrapperRun m ((t, msg) :: rest)
      = (if is_subset msg errorPattern then .error (.janusError msg) else .ok msg, true) := by
  simp [sendWrapperRun, List.find?, ht, hm]
  cases hs : is_subset msg errorPattern <;> simp [hs]

/-- A gateway error reply delivered at once makes `__send_wrapper`
raise the gateway error. -/
theorem send_wrapper_error (m err : JValue) (h : is_subset err errorPattern = true) :
    sendWrapperRun m [(0, err)] = (.error (.janusError err), true) := by
  rw [send_wrapper_first_match m 0 err [] (by simp) (by simp [function_matcher, h])]
  simp [h]

/-- Handling a `webrtcup` message sets the event flag and nothing
else, from any state and any prior flag value. -/
theorem on_receive_webrtcup (st : State) (f : Bool) :
    on_receive st f webrtcupMsg = .ok (st, true, []) := rfl

/-- Once the flag is set, further `webrtcup` deliveries leave the
state-flag pair unchanged. -/
theorem receive_webrtcup_iter_set (n : Nat) (st : State) :
    receive_webrtcup_iter n (st, true) = (st, true) := by
  induction n with
  | zero => rfl
  | succ k ih =>
    simpa [receive_webrtcup_iter, webrtcup_step, on_receive_webrtcup] using ih

/-! ## Claim theorems -/

/-- Claim C1 (counterexample): running `publish_stream` against a
successful configure acknowledgement shows the session state is
already STREAMING_OUT_MEDIA when the offer is created — before any
acknowledgement is consumed — and that after the successful publish
the state is STREAMING_IN_MEDIA, not STREAMING_OUT_MEDIA. -/
theorem publish_stream_reaches_streaming_in_not_out :
    (configure_pc_and_create_offer true plugin0).2.state = .streaming_out_media
    ∧ (publish_stream true plugin0 [(1, sampleConfigureOkWithJsep)]).1 = .ok ()
    ∧ (publish_stream true plugin0 [(1, sampleConfigureOkWithJsep)]).2.state
        = .streaming_in_media
    ∧ State.streaming_in_media ≠ State.streaming_out_media := by
  refine ⟨by decide, by decide, by decide, by decide⟩

/-- Claim C1 (amended): `publish_stream` sets the state to
STREAMING_OUT_MEDIA when the local offer is created, before the
configure acknowledgement arrives, and after a publish whose configure
acknowledgement matches the success pattern and carries a valid answer
the state is STREAMING_IN_MEDIA. -/
theorem publish_stream_state_transitions (p : Plugin) (pcv : PC)
    (arrivals : List (Nat × JValue)) (reply : JValue)
    (hpc : p.pc = some pcv)
    (hok : (sendWrapperRun configure_matcher arrivals).1 = .ok reply)
    (hm : is_subset reply configure_matcher = true)
    (hj : valid_jsep reply = true) :
    (configure_pc_and_create_offer true p).2.state = .streaming_out_media
    ∧ (publish_stream true p arrivals).2.state = .streaming_in_media := by
  constructor
  · simp [configure_pc_and_create_offer, hpc]
  · simp [publish_stream, configure_pc_and_create_offer, hpc, configure, hok, hm, hj]

/-- Claim C1 (witness): the amended transition theorem applied to a
concrete idle plugin and a concrete successful configure reply. -/
theorem publish_stream_state_transitions_witness :
    plugin0.pc = some pc0
    ∧ ((configure_pc_and_create_offer true plugin0).2.state = .streaming_out_media
       ∧ (publish_stream true plugin0 [(1, sampleConfigureOkWithJsep)]).2.state
           = .streaming_in_media) :=
  ⟨by decide,
   publish_stream_state_transitions plugin0 pc0 [(1, sampleConfigureOkWithJsep)]
     sampleConfigureOkWithJsep (by decide) (by decide) (by decide) (by decide)⟩

/-- Claim C2 (counterexample): scenario C concretely — the configure
reply matches the success pattern but carries no answer; the call
returns normally with `False` (no exception of any kind is raised, in
particular no NegotiationError) and the plugin is unchanged. -/
theorem configure_missing_answer_returns_false_concrete :
    configure plugin0 [(0, sampleConfigureOkNoJsep)] = (.ok false, plugin0)
    ∧ plugin0.state = .idle := by
  refine ⟨by decide, by decide⟩

/-- Claim C2 (amended): when the configure reply matches the success
pattern but carries no valid session-description answer (no `jsep`, or
one lacking `sdp` or `type`), `configure` returns `False` without
raising and leaves the plugin — its SessionState included —
unchanged. -/
theorem configure_missing_answer_no_state_change (p : Plugin) (pcv : PC)
    (arrivals : List (Nat × JValue)) (reply : JValue)
    (hpc : p.pc = some pcv)
    (hok : (sendWrapperRun configure_matcher arrivals).1 = .ok reply)
    (hm : is_subset reply configure_matcher = true)
    (hj : valid_jsep reply = false) :
    configure p arrivals = (.ok false, p) := by
  simp [configure, hpc, hok, hm, hj]

/-- Claim C2 (witness): the amended theorem applied to scenario C's
concrete reply. -/
theorem configure_missing_answer_no_state_change_witness :
    valid_jsep sampleConfigureOkNoJsep = false
    ∧ configure plugin0 [(0, sampleConfigureOkNoJsep)] = (.ok false, plugin0) :=
  ⟨by decide,
   configure_missing_answer_no_state_change plugin0 pc0 [(0, sampleConfigureOkNoJsep)]
     sampleConfigureOkNoJsep (by decide) (by decide) (by decide) (by decide)⟩

/-- Claim C3: a reply matching the top-level error shape satisfies
`function_matcher` whatever the caller's success matcher is, and each
send-then-await operation (exists, join, leave, configure) then raises
the gateway error carrying the error payload instead of returning a
result (and leaves the plugin unchanged where it holds one). -/
theorem error_reply_overrides_matchers (m room err : JValue) (p : Plugin) (pcv : PC)
    (h : is_subset err errorPattern = true) (hpc : p.pc = some pcv) :
    function_matcher m err = true
    ∧ sendWrapperRun m [(0, err)] = (.error (.janusError err), true)
    ∧ exists_op room [(0, err)] = .error (.janusError err)
    ∧ join_op room [(0, err)] = .error (.janusError err)
    ∧ leave_op room p [(0, err)] = (.error (.janusError err), p)
    ∧ configure p [(0, err)] = (.error (.janusError err), p) := by
  refine ⟨function_matcher_error m err h, send_wrapper_error m err h, ?_, ?_, ?_, ?_⟩
  · simp [exists_op, send_wrapper_error _ _ h]
  · simp [join_op, send_wrapper_error _ _ h]
  · simp [leave_op, send_wrapper_error _ _ h]
  · simp [configure, hpc, send_wrapper_error _ _ h]

/-- Claim C3 (witness): the override theorem applied to a concrete
gateway error reply, the join success matcher and a concrete plugin. -/
theorem error_reply_overrides_matchers_witness :
    is_subset sampleError errorPattern = true
    ∧ join_op room1234 [(0, sampleError)] = .error (.janusError sampleError) :=
  ⟨by decide,
   (error_reply_overrides_matchers (join_matcher room1234) room1234 sampleError
     plugin0 pc0 (by decide) (by decide)).2.2.2.1⟩

/-- Claim C4: a media signal with `receiving` truthy raises
"Media streaming when idle" in IDLE, and in STREAMING_IN_MEDIA invokes
the media-received callback without raising — on every such signal,
also when the signal is observed twice in succession. -/
theorem media_signal_idle_raises_streaming_in_notifies
    (msg : JValue) (f : Bool) (r : JValue)
    (hj : msg.get? "janus" = some (.jstr "media"))
    (hr : msg.get? "receiving" = some r) (hrt : pyTruthy r = true)
    (hnj : hasKey msg "jsep" = false) :
    on_receive .idle f msg = .error (.exception "Media streaming when idle")
    ∧ on_receive .streaming_in_media f msg
        = .ok (.streaming_in_media, f, [.mediaReceived])
    ∧ on_receive_all .streaming_in_media f [msg, msg]
        = .ok (.streaming_in_media, f, [.mediaReceived, .mediaReceived]) := by
  have h2 : on_receive .streaming_in_media f msg
      = .ok (.streaming_in_media, f, [.mediaReceived]) := by
    simp [on_receive, hj, hr, hrt, hnj]
  exact ⟨by simp [on_receive, hj, hr, hrt, hnj], h2, by simp [on_receive_all, h2]⟩

/-- Claim C4 (witness): the media-signal theorem applied to the
concrete media-flowing broadcast. -/
theorem media_signal_idle_raises_streaming_in_notifies_witness :
    pyTruthy (.jbool true) = true
    ∧ (on_receive .idle false sampleMediaMsg
         = .error (.exception "Media streaming when idle")
       ∧ on_receive .streaming_in_media false sampleMediaMsg
         = .ok (.streaming_in_media, false, [.mediaReceived])
       ∧ on_receive_all .streaming_in_media false [sampleMediaMsg, sampleMediaMsg]
         = .ok (.streaming_in_media, false, [.mediaReceived, .mediaReceived])) :=
  ⟨by decide,
   media_signal_idle_raises_streaming_in_notifies sampleMediaMsg false (.jbool true)
     (by decide) (by decide) (by decide) (by decide)⟩

/-- Claim C5: `exists` returns the value of the `exists` field of a
reply matched by its success pattern — `True` when the field is true,
`False` when it is false. -/
theorem exists_returns_exists_field (room reply : JValue) (b : Bool)
    (hm : is_subset reply (exists_matcher room) = true)
    (hne : is_subset reply errorPattern = false)
    (hx : jget3 reply "plugindata" "data" "exists" = some (.jbool b)) :
    exists_op room [(0, reply)] = .ok (.jbool b) := by
  have h1 := send_wrapper_first_match (exists_matcher room) 0 reply []
    (by simp) (by simp [function_matcher, hm])
  rw [hne] at h1
  simp at h1
  simp [exists_op, h1, hm, hx]

/-- Claim C5 (witness): scenario A — the concrete exists reply for
room "1234" with `exists: true` makes `exists` return `True`. -/
theorem exists_returns_exists_field_witness :
    is_subset sampleExistsReply (exists_matcher room1234) = true
    ∧ exists_op room1234 [(0, sampleExistsReply)] = .ok (.jbool true) :=
  ⟨by decide,
   exists_returns_exists_field room1234 sampleExistsReply true
     (by decide) (by decide) (by decide)⟩

/-- Claim C6: from STREAMING_OUT_MEDIA or STREAMING_IN_MEDIA, both a
connection-closed notification from the media engine and a successful
explicit leave reset the session state to IDLE; in that transition the
peer connection ends closed and the configured stream-ended callback
is invoked exactly once. -/
theorem teardown_resets_idle_closes_then_notifies (p : Plugin) (pcv : PC)
    (room : JValue) (arrivals : List (Nat × JValue)) (reply : JValue)
    (hpc : p.pc = some pcv) (hreg : pcv.handlerRegistered = true)
    (hopen : pcv.connectionState ≠ "closed")
    (_hst : p.state = .streaming_out_media ∨ p.state = .streaming_in_media)
    (hok : (sendWrapperRun (leave_matcher room) arrivals).1 = .ok reply) :
    connection_closed p
      = { state := .idle, pc := some { pcv with connectionState := "closed" },
          events := p.events ++ [.streamEnded] }
    ∧ leave_op room p arrivals
      = (.ok (is_subset reply (leave_matcher room)),
         { state := .idle, pc := some { pcv with connectionState := "closed" },
           events := p.events ++ [.streamEnded] }) := by
  have hcc : connection_closed p
      = { state := .idle, pc := some { pcv with connectionState := "closed" },
          events := p.events ++ [.streamEnded] } := by
    simp [connection_closed, hpc, hreg, on_state_changed, on_stream_ended]
  refine ⟨hcc, ?_⟩
  simp [leave_op, hok, hpc, pc_close, hopen, hreg, on_state_changed, on_stream_ended]

/-- Claim C6 (witness): the teardown theorem applied to a concrete
streaming plugin and a concrete successful leave reply. -/
theorem teardown_resets_idle_closes_then_notifies_witness :
    pluginStreaming.state = .streaming_in_media
    ∧ (connection_closed pluginStreaming
         = { state := .idle, pc := some { pcReg with connectionState := "closed" },
             events := [.streamEnded] }
       ∧ leave_op room1234 pluginStreaming [(0, sampleLeaveReply)]
         = (.ok (is_subset sampleLeaveReply (leave_matcher room1234)),
            { state := .idle, pc := some { pcReg with connectionState := "closed" },
              events := [.streamEnded] })) :=
  ⟨by decide,
   teardown_resets_idle_closes_then_notifies pluginStreaming pcReg room1234
     [(0, sampleLeaveReply)] sampleLeaveReply (by decide) (by decide) (by decide)
     (Or.inr (by decide)) (by decide)⟩

/-- Claim C7: the transaction of every send-then-await operation is
released whatever happens, and when no reply satisfying the matcher
arrives within the protocol-default timeout of 15 time-units — even if
a matching reply arrives later — the await fails with
TransactionTimeout, with the transaction released. -/
theorem await_timeout_fifteen_releases (m : JValue) (arrivals : List (Nat × JValue)) :
    (sendWrapperRun m arrivals).2 = true
    ∧ ((∀ a ∈ arrivals, a.1 ≤ 15 → function_matcher m a.2 = false) →
        sendWrapperRun m arrivals = (.error .transactionTimeout, true)) := by
  constructor
  · unfold sendWrapperRun
    split
    · rfl
    · split <;> rfl
  · intro h
    have hf : arrivals.find? (fun a => decide (a.1 ≤ 15) && function_matcher m a.2)
        = none := by
      rw [List.find?_eq_none]
      intro x hx
      simp only [Bool.and_eq_true, decide_eq_true_eq, not_and]
      intro h15
      simp [h x hx h15]
    simp [sendWrapperRun, hf]

/-- Claim C7 (witness): a configure reply that arrives at time 16 —
after the 15 time-unit deadline — is not observed: the await times
out and the transaction is released. -/
theorem await_timeout_fifteen_releases_witness :
    (∀ a ∈ [((16 : Nat), sampleConfigureOkWithJsep)],
        a.1 ≤ 15 → function_matcher configure_matcher a.2 = false)
    ∧ sendWrapperRun configure_matcher [(16, sampleConfigureOkWithJsep)]
        = (.error .transactionTimeout, true) :=
  ⟨by decide,
   (await_timeout_fifteen_releases configure_matcher
     [(16, sampleConfigureOkWithJsep)]).2 (by decide)⟩

/-- Claim C8: the webrtc-up flag is a single-slot level-triggered
event: handling a `webrtcup` message sets it, any number `n ≥ 1` of
deliveries leaves exactly the same set flag (coalesced, not queued),
one wait observes it and clears it, and a wait on the cleared flag
blocks until a new message arrives. -/
theorem webrtcup_flag_coalesced_and_cleared (st : State) (f : Bool) (n : Nat)
    (h : 1 ≤ n) :
    on_receive st f webrtcupMsg = .ok (st, true, [])
    ∧ receive_webrtcup_iter n (st, f) = (st, true)
    ∧ wait_webrtcup_step true = some false
    ∧ wait_webrtcup_step false = none := by
  refine ⟨on_receive_webrtcup st f, ?_, rfl, rfl⟩
  obtain ⟨k, rfl⟩ : ∃ k, n = k + 1 := ⟨n - 1, by omega⟩
  simp [receive_webrtcup_iter, webrtcup_step, on_receive_webrtcup,
    receive_webrtcup_iter_set]

/-- Claim C8 (witness): two successive `webrtcup` deliveries from an
idle session coalesce into one set flag, consumed by a single wait. -/
theorem webrtcup_flag_coalesced_and_cleared_witness :
    1 ≤ 2
    ∧ (on_receive .idle false webrtcupMsg = .ok (.idle, true, [])
       ∧ receive_webrtcup_iter 2 (.idle, false) = (.idle, true)
       ∧ wait_webrtcup_step true = some false
       ∧ wait_webrtcup_step false = none) :=
  ⟨by decide, webrtcup_flag_coalesced_and_cleared .idle false 2 (by decide)⟩

/-- Claim C9: for every message whose `plugindata.data` does not carry
the key `videoroom` — as in all audiobridge replies — the two generic
acceptance patterns inside `__send_wrapper` cannot match, so
`function_matcher` accepts the message exactly when the caller's
success matcher or the top-level error pattern does. -/
theorem function_matcher_without_videoroom (m msg : JValue)
    (h : has_videoroom_key msg = false) :
    function_matcher m msg = (is_subset msg m || is_subset msg errorPattern) := by
  have h1 : is_subset msg genericSuccessPat = false := by
    cases hs : is_subset msg genericSuccessPat
    · rfl
    · exact absurd (generic_needs_videoroom msg (.jstr "success") hs) (by simp [h])
  have h2 : is_subset msg genericEventPat = false := by
    cases hs : is_subset msg genericEventPat
    · rfl
    · exact absurd (generic_needs_videoroom msg (.jstr "event") hs) (by simp [h])
  simp [function_matcher, h1, h2]

/-- Claim C9 (witness): the audiobridge exists reply carries no
`videoroom` key, so `function_matcher` on it reduces to the caller's
matcher or the error pattern. -/
theorem function_matcher_without_videoroom_witness :
    has_videoroom_key sampleExistsReply = false
    ∧ function_matcher (exists_matcher room1234) sampleExistsReply
        = (is_subset sampleExistsReply (exists_matcher room1234)
           || is_subset sampleExistsReply errorPattern) :=
  ⟨by decide,
   function_matcher_without_videoroom (exists_matcher room1234) sampleExistsReply
     (by decide)⟩

/-- Claim C10: a media signal with `receiving` truthy handled in
STREAMING_OUT_MEDIA is silently ignored — `on_receive` neither raises
nor emits any callback event and leaves state and flag unchanged. -/
theorem media_signal_streaming_out_ignored (msg : JValue) (f : Bool) (r : JValue)
    (hj : msg.get? "janus" = some (.jstr "media"))
    (hr : msg.get? "receiving" = some r) (hrt : pyTruthy r = true)
    (hnj : hasKey msg "jsep" = false) :
    on_receive .streaming_out_media f msg = .ok (.streaming_out_media, f, []) := by
  simp [on_receive, hj, hr, hrt, hnj]

/-- Claim C10 (witness): the concrete media-flowing broadcast handled
while streaming out produces no error and no callback. -/
theorem media_signal_streaming_out_ignored_witness :
    (sampleMediaMsg.get? "janus" = some (.jstr "media"))
    ∧ on_receive .streaming_out_media false sampleMediaMsg
        = .ok (.streaming_out_media, false, []) :=
  ⟨by decide,
   media_signal_streaming_out_ignored sampleMediaMsg false (.jbool true)
     (by decide) (by decide) (by decide) (by decide)⟩
